import Mathlib

/-!
Shallow embedding of the `solana-gasless-sdk` client: the `GaslessSDK` class
(the unnamed source file holding `src/index.ts`) and the record types of
`src/types.ts`.

Modelling conventions, chosen to follow the JavaScript source:
- `undefined` / `null` become `Option`; JS `||` fallbacks test both `none`
  and the empty string (both are falsy in JS).
- The untyped `response.data` JSON object is a record of the optional fields
  the client reads (`JsonData`).
- A thrown or rejected error, as the `catch (error: any)` blocks read it, is
  a `JsError` carrying `error.response?.data` and `error.message`.
- The single axios call a method performs is a function
  `net : HttpRequest → HttpOutcome` supplied by the environment; each method
  returns, beside its result, the list of HTTP requests it issued, so that
  request counts, URLs, headers and bodies are stated directly.
- The outcome of `await this.auth.currentUser?.getIdToken()` is a
  `TokenOutcome`: an optional token string, or a rejected promise.
- JS numbers are exact rationals for the unit-conversion helpers (where
  `Math.floor` matters) and `Int` for lamport amounts carried opaquely
  through requests.
-/

namespace GaslessSDK

/-- `GaslessSDKConfig` from `src/types.ts`: `relayerUrl` is optional; the
`firebaseConfig` credential block is opaque to the client logic modelled
here and is elided. -/
structure GaslessSDKConfig where
  relayerUrl : Option String

/-- The default relayer endpoint hard-coded in the constructor. -/
def defaultRelayerUrl : String := "https://relayer-backend.onrender.com"

/-- The constructor assignment
`this.relayerUrl = config.relayerUrl || 'https://relayer-backend.onrender.com'`;
JS `||` falls through on `undefined` and on the empty string. -/
def constructorRelayerUrl (config : GaslessSDKConfig) : String :=
  match config.relayerUrl with
  | none => defaultRelayerUrl
  | some s => if s = "" then defaultRelayerUrl else s

/-- `Transaction` from `src/types.ts`. -/
structure Transaction where
  signature : String
  recipient : String
  lamports : Int
  timestamp : Int
deriving DecidableEq

/-- The untyped `response.data` JSON object, restricted to the fields the
client ever reads; every field may be absent (`none` = JS `undefined`). -/
structure JsonData where
  publicKey : Option String
  signature : Option String
  recipient : Option String
  lamports : Option Int
  message : Option String
  transactions : Option (List Transaction)
deriving DecidableEq

/-- A thrown/rejected JS error as the `catch (error: any)` blocks read it:
`response` models `error.response?.data` (absent when the error does not come
from an HTTP response, e.g. `new Error('User not authenticated')` or a
network failure) and `message` models `error.message`. -/
structure JsError where
  response : Option JsonData
  message : String
deriving DecidableEq

/-- `error.response?.data?.message || error.message` from the catch block of
`sendTransaction`; JS `||` falls through on `undefined` and on `""`. -/
def JsError.clientMessage (e : JsError) : String :=
  match e.response with
  | none => e.message
  | some d =>
    match d.message with
    | none => e.message
    | some m => if m = "" then e.message else m

/-- Outcome of `await this.auth.currentUser?.getIdToken()`: `ok none` is the
`undefined` token of an absent user, `ok (some t)` a token string (which JS
still treats as falsy when empty), `throws e` a rejected promise. -/
inductive TokenOutcome where
  | ok (token : Option String)
  | throws (e : JsError)

/-- HTTP verb of an axios call. -/
inductive HttpMethod where
  | get
  | post
deriving DecidableEq

/-- An outgoing axios request as the three methods build it: URL, the value
of the `Authorization` header when one is set, and the JSON body
`{ to, lamports }` for the relay POST. -/
structure HttpRequest where
  method : HttpMethod
  url : String
  authHeader : Option String
  body : Option (String × Int)
deriving DecidableEq

/-- Outcome of one axios call: a 2xx response with its `data`, or a thrown
error (non-2xx status or network failure). -/
inductive HttpOutcome where
  | ok (data : JsonData)
  | err (e : JsError)

/-- `TransactionResult` from `src/types.ts`; the optional fields are
`Option`. -/
structure TransactionResult where
  success : Bool
  signature : Option String
  recipient : Option String
  lamports : Option Int
  error : Option String
deriving DecidableEq

/-- The `{ success: false, error: msg }` value built by the catch block of
`sendTransaction`. -/
def mkError (msg : String) : TransactionResult :=
  ⟨false, none, none, none, some msg⟩

/-- The `new Error('User not authenticated')` thrown when the token is
falsy; it has no HTTP response attached. -/
def notAuthenticated : JsError :=
  ⟨none, "User not authenticated"⟩

/-- The GET `${relayerUrl}/me` request of `getWallet`, with its
`Authorization: Bearer <token>` header. -/
def meRequest (relayerUrl token : String) : HttpRequest :=
  ⟨.get, relayerUrl ++ "/me", some ("Bearer " ++ token), none⟩

/-- The POST `${relayerUrl}/relay` request of `sendTransaction`, carrying
`{ to: recipientAddress, lamports }` and the bearer header. -/
def relayRequest (relayerUrl token recipientAddress : String)
    (lamports : Int) : HttpRequest :=
  ⟨.post, relayerUrl ++ "/relay", some ("Bearer " ++ token),
    some (recipientAddress, lamports)⟩

/-- The GET `${relayerUrl}/transactions` request of `getTransactionHistory`,
with the bearer header. -/
def transactionsRequest (relayerUrl token : String) : HttpRequest :=
  ⟨.get, relayerUrl ++ "/transactions", some ("Bearer " ++ token), none⟩

/-- `getWallet`: result (`none` = JS `null`) and the list of HTTP requests
issued. A falsy token throws `'User not authenticated'`; the catch block
logs any error and returns `null`; success returns
`response.data.publicKey`. -/
def getWallet (relayerUrl : String) (tk : TokenOutcome)
    (net : HttpRequest → HttpOutcome) : Option String × List HttpRequest :=
  match tk with
  | .throws _ => (none, [])
  | .ok none => (none, [])
  | .ok (some t) =>
    if t = "" then (none, [])
    else
      match net (meRequest relayerUrl t) with
      | .ok data => (data.publicKey, [meRequest relayerUrl t])
      | .err _ => (none, [meRequest relayerUrl t])

/-- `sendTransaction`: result and the list of HTTP requests issued. Success
copies `signature` / `recipient` / `lamports` from `response.data`; every
caught error (missing token, rejected token lookup, axios error) produces
`{ success: false, error: error.response?.data?.message || error.message }`. -/
def sendTransaction (relayerUrl : String) (tk : TokenOutcome)
    (net : HttpRequest → HttpOutcome) (recipientAddress : String)
    (lamports : Int) : TransactionResult × List HttpRequest :=
  match tk with
  | .throws e => (mkError e.clientMessage, [])
  | .ok none => (mkError notAuthenticated.clientMessage, [])
  | .ok (some t) =>
    if t = "" then (mkError notAuthenticated.clientMessage, [])
    else
      match net (relayRequest relayerUrl t recipientAddress lamports) with
      | .ok data =>
        (⟨true, data.signature, data.recipient, data.lamports, none⟩,
          [relayRequest relayerUrl t recipientAddress lamports])
      | .err e =>
        (mkError e.clientMessage,
          [relayRequest relayerUrl t recipientAddress lamports])

/-- `getTransactionHistory`: result and the list of HTTP requests issued.
`some l` is a returned JS array (`none` the `undefined` that
`response.data.transactions` may be on a malformed 2xx response); the catch
block logs any error and returns the literal empty array. -/
def getTransactionHistory (relayerUrl : String) (tk : TokenOutcome)
    (net : HttpRequest → HttpOutcome) :
    Option (List Transaction) × List HttpRequest :=
  match tk with
  | .throws _ => (some [], [])
  | .ok none => (some [], [])
  | .ok (some t) =>
    if t = "" then (some [], [])
    else
      match net (transactionsRequest relayerUrl t) with
      | .ok data => (data.transactions, [transactionsRequest relayerUrl t])
      | .err _ => (some [], [transactionsRequest relayerUrl t])

/-- `static solToLamports(sol) { return Math.floor(sol * 1e9); }`,
JS numbers modelled as exact rationals, so the result is an integer. -/
def solToLamports (sol : ℚ) : ℤ := ⌊sol * 1000000000⌋

/-- `static lamportsToSol(lamports) { return lamports / 1e9; }` over exact
rationals. -/
def lamportsToSol (lamports : ℚ) : ℚ := lamports / 1000000000

/-- A network environment in which every request fails with the same thrown
error; used to instantiate the failure-path theorems at concrete inputs. -/
def errNet (e : JsError) : HttpRequest → HttpOutcome := fun _ => .err e

/-- A network environment in which every request succeeds with the same
response data; used to instantiate theorems at concrete inputs. -/
def okNet (d : JsonData) : HttpRequest → HttpOutcome := fun _ => .ok d

/-- C1: the two unit-conversion helpers are mutual inverses: the
sol → lamports → sol round trip lands within one lamport (`1/10^9` SOL,
the floating-point-tolerance of the conversion, which floors), and the
lamports → sol → lamports round trip is exact on every whole number of
lamports. -/
theorem conversions_mutual_inverses :
    (∀ s : ℚ, |lamportsToSol (solToLamports s) - s| < 1 / 1000000000) ∧
    (∀ n : ℤ, solToLamports (lamportsToSol (n : ℚ)) = n) := by
  constructor
  · intro s
    have h1 : ((⌊s * 1000000000⌋ : ℤ) : ℚ) ≤ s * 1000000000 := Int.floor_le _
    have h2 : s * 1000000000 - 1 < ((⌊s * 1000000000⌋ : ℤ) : ℚ) :=
      Int.sub_one_lt_floor _
    unfold lamportsToSol solToLamports
    rw [abs_lt]
    constructor
    · rw [neg_lt, neg_sub, sub_lt_iff_lt_add, div_add_div_same,
        lt_div_iff₀ (by norm_num : (0:ℚ) < 1000000000)]
      linarith
    · rw [sub_lt_iff_lt_add, div_lt_iff₀ (by norm_num : (0:ℚ) < 1000000000)]
      linarith
  · intro n
    unfold lamportsToSol solToLamports
    rw [div_mul_cancel₀ _ (by norm_num : (1000000000 : ℚ) ≠ 0)]
    exact Int.floor_intCast n

/-- C2: converting one whole SOL yields the fixed constant `10^9` lamports,
and converting that constant back yields one SOL. -/
theorem one_sol_is_billion_lamports :
    solToLamports 1 = 1000000000 ∧ lamportsToSol 1000000000 = 1 := by
  constructor
  · unfold solToLamports
    rw [one_mul]
    exact_mod_cast Int.floor_intCast (α := ℚ) 1000000000
  · unfold lamportsToSol
    norm_num

/-- C3 counterexample: the relayer's error response carries the (empty)
server-provided message `""`, yet the returned error field is the axios
fallback `"timeout"`, not that message unchanged — JS `||` discards a falsy
server message. -/
theorem sendTransaction_rewrites_empty_server_message :
    (sendTransaction "https://r" (.ok (some "tok"))
        (errNet ⟨some ⟨none, none, none, none, some "", none⟩, "timeout"⟩)
        "dest" 5).1.error = some "timeout" ∧
    (sendTransaction "https://r" (.ok (some "tok"))
        (errNet ⟨some ⟨none, none, none, none, some "", none⟩, "timeout"⟩)
        "dest" 5).1.error ≠ some "" := by
  exact ⟨rfl, by decide⟩

/-- C3 (amended): a failed `sendTransaction` whose HTTP error response
carries a NONEMPTY server-provided message returns exactly that message,
unchanged, in the result's error field. -/
theorem sendTransaction_forwards_server_message
    (relayerUrl t recipientAddress m fallback : String) (lamports : Int)
    (d : JsonData) (net : HttpRequest → HttpOutcome)
    (ht : t ≠ "") (hm : m ≠ "") (hd : d.message = some m)
    (hnet : net (relayRequest relayerUrl t recipientAddress lamports) =
      .err ⟨some d, fallback⟩) :
    (sendTransaction relayerUrl (.ok (some t)) net recipientAddress
        lamports).1.error = some m := by
  simp [sendTransaction, ht, hnet, JsError.clientMessage, hd, hm, mkError]

/-- Witness for the amended C3 at a concrete failing call. -/
theorem sendTransaction_forwards_server_message_witness :
    ("tok" : String) ≠ "" ∧ ("Insufficient balance" : String) ≠ "" ∧
    (sendTransaction "https://r" (.ok (some "tok"))
        (errNet ⟨some ⟨none, none, none, none, some "Insufficient balance",
          none⟩, "fallback"⟩) "dest" 5).1.error =
      some "Insufficient balance" :=
  ⟨by decide, by decide,
    sendTransaction_forwards_server_message "https://r" "tok" "dest"
      "Insufficient balance" "fallback" 5
      ⟨none, none, none, none, some "Insufficient balance", none⟩
      (errNet ⟨some ⟨none, none, none, none, some "Insufficient balance",
        none⟩, "fallback"⟩)
      (by decide) (by decide) rfl rfl⟩

/-- C4: whenever the token lookup rejects, or every HTTP request fails
(non-2xx or network exception), `sendTransaction` returns the uniform
`{ success: false, error }` shape built by `mkError`, while `getWallet`
returns `null` and `getTransactionHistory` returns the empty list,
swallowing the error. -/
theorem failure_outcome_shapes (relayerUrl recipientAddress t : String)
    (lamports : Int) (e : JsError) (net : HttpRequest → HttpOutcome)
    (ht : t ≠ "") (hnet : ∀ req, net req = .err e) :
    ((sendTransaction relayerUrl (.ok (some t)) net recipientAddress
        lamports).1 = mkError e.clientMessage ∧
      (sendTransaction relayerUrl (.throws e) net recipientAddress
        lamports).1 = mkError e.clientMessage) ∧
    ((getWallet relayerUrl (.ok (some t)) net).1 = none ∧
      (getWallet relayerUrl (.throws e) net).1 = none) ∧
    ((getTransactionHistory relayerUrl (.ok (some t)) net).1 = some [] ∧
      (getTransactionHistory relayerUrl (.throws e) net).1 = some []) := by
  refine ⟨⟨?_, rfl⟩, ⟨?_, rfl⟩, ⟨?_, rfl⟩⟩ <;>
    simp [sendTransaction, getWallet, getTransactionHistory, ht, hnet]

/-- Witness for C4 at a concrete always-failing network. -/
theorem failure_outcome_shapes_witness :
    ("tok" : String) ≠ "" ∧
    (∀ req, errNet (⟨none, "boom"⟩ : JsError) req =
      .err (⟨none, "boom"⟩ : JsError)) ∧
    (sendTransaction "https://r" (.ok (some "tok"))
        (errNet ⟨none, "boom"⟩) "dest" 7).1 =
      mkError (JsError.clientMessage ⟨none, "boom"⟩) ∧
    (getWallet "https://r" (.ok (some "tok")) (errNet ⟨none, "boom"⟩)).1 =
      none ∧
    (getTransactionHistory "https://r" (.ok (some "tok"))
        (errNet ⟨none, "boom"⟩)).1 = some [] := by
  have h := failure_outcome_shapes "https://r" "dest" "tok" 7 ⟨none, "boom"⟩
    (errNet ⟨none, "boom"⟩) (by decide) (fun _ => rfl)
  exact ⟨by decide, fun _ => rfl, h.1.1, h.2.1.1, h.2.2.1⟩

/-- C5: with no identity-provider token available (`currentUser` absent, so
the token is `undefined`), every call deterministically returns its
not-authenticated value — `sendTransaction` the
`{ success: false, error: 'User not authenticated' }` result, `getWallet`
`null`, `getTransactionHistory` the empty list — and none of them issues any
HTTP request. -/
theorem unauthenticated_indications (relayerUrl recipientAddress : String)
    (lamports : Int) (net : HttpRequest → HttpOutcome) :
    (sendTransaction relayerUrl (.ok none) net recipientAddress lamports).1 =
      mkError "User not authenticated" ∧
    (getWallet relayerUrl (.ok none) net).1 = none ∧
    (getTransactionHistory relayerUrl (.ok none) net).1 = some [] ∧
    (sendTransaction relayerUrl (.ok none) net recipientAddress
      lamports).2 = [] ∧
    (getWallet relayerUrl (.ok none) net).2 = [] ∧
    (getTransactionHistory relayerUrl (.ok none) net).2 = [] :=
  ⟨rfl, rfl, rfl, rfl, rfl, rfl⟩

/-- C6: with an authenticated user (a nonempty token), each of the three
methods issues exactly its one request, and that request carries the
identity-provider token in an `Authorization: Bearer <token>` header. -/
theorem bearer_header_attached (relayerUrl recipientAddress t : String)
    (lamports : Int) (net : HttpRequest → HttpOutcome) (ht : t ≠ "") :
    ((getWallet relayerUrl (.ok (some t)) net).2 =
        [meRequest relayerUrl t] ∧
      (meRequest relayerUrl t).authHeader = some ("Bearer " ++ t)) ∧
    ((sendTransaction relayerUrl (.ok (some t)) net recipientAddress
        lamports).2 = [relayRequest relayerUrl t recipientAddress lamports] ∧
      (relayRequest relayerUrl t recipientAddress lamports).authHeader =
        some ("Bearer " ++ t)) ∧
    ((getTransactionHistory relayerUrl (.ok (some t)) net).2 =
        [transactionsRequest relayerUrl t] ∧
      (transactionsRequest relayerUrl t).authHeader =
        some ("Bearer " ++ t)) := by
  refine ⟨⟨?_, rfl⟩, ⟨?_, rfl⟩, ⟨?_, rfl⟩⟩ <;>
  · simp only [getWallet, sendTransaction, getTransactionHistory, if_neg ht]
    cases hn : net (meRequest relayerUrl t) <;>
      cases hn2 : net (relayRequest relayerUrl t recipientAddress lamports) <;>
      cases hn3 : net (transactionsRequest relayerUrl t) <;>
      simp [hn, hn2, hn3]

/-- Witness for C6 at a concrete authenticated call. -/
theorem bearer_header_attached_witness :
    ("tok" : String) ≠ "" ∧
    (getWallet "https://r" (.ok (some "tok"))
        (okNet ⟨some "PK", none, none, none, none, none⟩)).2 =
      [meRequest "https://r" "tok"] ∧
    (meRequest "https://r" "tok").authHeader = some ("Bearer " ++ "tok") := by
  have h := bearer_header_attached "https://r" "dest" "tok" 7
    (okNet ⟨some "PK", none, none, none, none, none⟩) (by decide)
  exact ⟨by decide, h.1.1, h.1.2⟩

/-- C7: the client performs no local validation of the transfer amount:
for every recipient address and every lamports value, an authenticated
`sendTransaction` issues exactly one relay request whose body carries that
recipient and that exact lamports value, whatever its size. -/
theorem no_client_side_amount_check (relayerUrl recipientAddress t : String)
    (lamports : Int) (net : HttpRequest → HttpOutcome) (ht : t ≠ "") :
    (sendTransaction relayerUrl (.ok (some t)) net recipientAddress
        lamports).2 = [relayRequest relayerUrl t recipientAddress lamports] ∧
    (relayRequest relayerUrl t recipientAddress lamports).body =
      some (recipientAddress, lamports) := by
  refine ⟨?_, rfl⟩
  simp only [sendTransaction, if_neg ht]
  cases hn : net (relayRequest relayerUrl t recipientAddress lamports) <;>
    simp [hn]

/-- Witness for C7 with an amount far above the relayer's stated
per-transfer maximum. -/
theorem no_client_side_amount_check_witness :
    ("tok" : String) ≠ "" ∧
    (sendTransaction "https://r" (.ok (some "tok"))
        (okNet ⟨none, some "sig", some "dest", some 1000000000000000, none,
          none⟩) "dest" 1000000000000000).2 =
      [relayRequest "https://r" "tok" "dest" 1000000000000000] ∧
    (relayRequest "https://r" "tok" "dest" 1000000000000000).body =
      some ("dest", 1000000000000000) := by
  have h := no_client_side_amount_check "https://r" "dest" "tok"
    1000000000000000
    (okNet ⟨none, some "sig", some "dest", some 1000000000000000, none, none⟩)
    (by decide)
  exact ⟨by decide, h.1, h.2⟩

/-- C8: every invocation of each of the three methods issues at most one
HTTP request, for every token outcome and every network behaviour — there is
no retry after a failure. -/
theorem at_most_one_request (relayerUrl recipientAddress : String)
    (lamports : Int) (tk : TokenOutcome) (net : HttpRequest → HttpOutcome) :
    (getWallet relayerUrl tk net).2.length ≤ 1 ∧
    (sendTransaction relayerUrl tk net recipientAddress lamports).2.length
      ≤ 1 ∧
    (getTransactionHistory relayerUrl tk net).2.length ≤ 1 := by
  refine ⟨?_, ?_, ?_⟩ <;>
  · match tk with
    | .throws e => simp [getWallet, sendTransaction, getTransactionHistory]
    | .ok none => simp [getWallet, sendTransaction, getTransactionHistory]
    | .ok (some t) =>
      by_cases ht : t = ""
      · simp [getWallet, sendTransaction, getTransactionHistory, ht]
      · simp only [getWallet, sendTransaction, getTransactionHistory,
          if_neg ht]
        cases hn : net (meRequest relayerUrl t) <;>
          cases hn2 : net (relayRequest relayerUrl t recipientAddress
            lamports) <;>
          cases hn3 : net (transactionsRequest relayerUrl t) <;>
          simp [hn, hn2, hn3]

/-- C9: `sendTransaction` is total over every token outcome (including a
rejected token lookup) and every network behaviour, always yielding a
`TransactionResult`; a success result carries no error field and a failure
result carries no signature, recipient, or lamports fields. -/
theorem sendTransaction_result_shape (relayerUrl recipientAddress : String)
    (lamports : Int) (tk : TokenOutcome) (net : HttpRequest → HttpOutcome) :
    ((sendTransaction relayerUrl tk net recipientAddress
        lamports).1.success = true →
      (sendTransaction relayerUrl tk net recipientAddress
        lamports).1.error = none) ∧
    ((sendTransaction relayerUrl tk net recipientAddress
        lamports).1.success = false →
      (sendTransaction relayerUrl tk net recipientAddress
          lamports).1.signature = none ∧
        (sendTransaction relayerUrl tk net recipientAddress
          lamports).1.recipient = none ∧
        (sendTransaction relayerUrl tk net recipientAddress
          lamports).1.lamports = none) := by
  match tk with
  | .throws e => exact ⟨fun h => by simp [sendTransaction, mkError] at h,
      fun _ => ⟨rfl, rfl, rfl⟩⟩
  | .ok none => exact ⟨fun h => by simp [sendTransaction, mkError] at h,
      fun _ => ⟨rfl, rfl, rfl⟩⟩
  | .ok (some t) =>
    by_cases ht : t = ""
    · subst ht
      exact ⟨fun h => by simp [sendTransaction, mkError] at h,
        fun _ => ⟨rfl, rfl, rfl⟩⟩
    · simp only [sendTransaction, if_neg ht]
      cases hn : net (relayRequest relayerUrl t recipientAddress lamports)
      · exact ⟨fun _ => rfl, fun h => by simp at h⟩
      · exact ⟨fun h => by simp [mkError] at h, fun _ => ⟨rfl, rfl, rfl⟩⟩

/-- Witness for C9: the implications discharged at concrete failing and
succeeding calls. -/
theorem sendTransaction_result_shape_witness :
    (sendTransaction "https://r" (.ok none) (errNet ⟨none, "boom"⟩)
        "dest" 3).1.signature = none ∧
    (sendTransaction "https://r" (.ok (some "tok"))
        (okNet ⟨none, some "sig", some "dest", some 3, none, none⟩)
        "dest" 3).1.error = none := by
  refine ⟨((sendTransaction_result_shape "https://r" "dest" 3 (.ok none)
      (errNet ⟨none, "boom"⟩)).2 rfl).1, ?_⟩
  exact (sendTransaction_result_shape "https://r" "dest" 3 (.ok (some "tok"))
    (okNet ⟨none, some "sig", some "dest", some 3, none, none⟩)).1 rfl

/-- C10: a configuration with `relayerUrl` omitted or empty yields the fixed
default relayer endpoint, and the three authenticated calls target exactly
the paths `/me`, `/relay` and `/transactions` under the configured
endpoint. -/
theorem relayer_url_default_and_paths (relayerUrl recipientAddress t :
    String) (lamports : Int) (net : HttpRequest → HttpOutcome)
    (ht : t ≠ "") :
    constructorRelayerUrl ⟨none⟩ = "https://relayer-backend.onrender.com" ∧
    constructorRelayerUrl ⟨some ""⟩ =
      "https://relayer-backend.onrender.com" ∧
    ((getWallet relayerUrl (.ok (some t)) net).2 =
        [meRequest relayerUrl t] ∧
      (meRequest relayerUrl t).url = relayerUrl ++ "/me") ∧
    ((sendTransaction relayerUrl (.ok (some t)) net recipientAddress
        lamports).2 = [relayRequest relayerUrl t recipientAddress lamports] ∧
      (relayRequest relayerUrl t recipientAddress lamports).url =
        relayerUrl ++ "/relay") ∧
    ((getTransactionHistory relayerUrl (.ok (some t)) net).2 =
        [transactionsRequest relayerUrl t] ∧
      (transactionsRequest relayerUrl t).url =
        relayerUrl ++ "/transactions") := by
  refine ⟨rfl, rfl, ⟨?_, rfl⟩, ⟨?_, rfl⟩, ⟨?_, rfl⟩⟩ <;>
  · simp only [getWallet, sendTransaction, getTransactionHistory, if_neg ht]
    cases hn : net (meRequest relayerUrl t) <;>
      cases hn2 : net (relayRequest relayerUrl t recipientAddress lamports) <;>
      cases hn3 : net (transactionsRequest relayerUrl t) <;>
      simp [hn, hn2, hn3]

/-- Witness for C10 at a concrete configuration and call. -/
theorem relayer_url_default_and_paths_witness :
    ("tok" : String) ≠ "" ∧
    constructorRelayerUrl ⟨none⟩ = "https://relayer-backend.onrender.com" ∧
    constructorRelayerUrl ⟨some ""⟩ =
      "https://relayer-backend.onrender.com" ∧
    (meRequest "https://r" "tok").url = "https://r" ++ "/me" := by
  have h := relayer_url_default_and_paths "https://r" "dest" "tok" 7
    (errNet ⟨none, "boom"⟩) (by decide)
  exact ⟨by decide, h.1, h.2.1, h.2.2.1.2⟩

end GaslessSDK
